import Mathlib

/-!
Alert-rule controller (`cmd/dashboard/controller/alertrule.go`)

A shallow embedding of the alert-rule handlers `createAlertRule`,
`updateAlertRule`, `batchDeleteAlertRule` and of `validateRule`, followed by
theorems about them.

Handlers are state-passing functions: the state holds the two database tables
the handlers touch and the in-memory cache `singleton.Alerts`; everything a
handler reads from its surroundings (request path, request body, the clock,
a failure of the storage backend) is an explicit input.
-/

namespace Nezha

/-! ## Data model -/

/-- An instant, as read from `time.Now()` or stored in `cycle_start`. -/
abbrev Time := Int

/-- Go's `Time.After`: the receiver is strictly later than the argument. -/
def Time.After (t u : Time) : Bool := decide (u < t)

/-- Modelled from the spec: the type `model.Rule` is not part of the source.
A rule expression carries the fields `validateRule` reads (`Duration`,
`CycleInterval`, `CycleStart`, a nil pointer being `none`) and the flag that
tells a transfer-duration (cyclic) expression from a plain one. -/
structure Rule where
  is_cyclic : Bool
  Duration : Int
  CycleInterval : Int
  CycleStart : Option Time
deriving DecidableEq, Repr

/-- Modelled from the spec: the method `IsTransferDurationRule` is not part of
the source; the spec describes it as the capability flag that distinguishes a
cyclic expression. -/
def Rule.IsTransferDurationRule (rule : Rule) : Bool := rule.is_cyclic

/-- Modelled from the spec: the type `model.AlertRule` is not part of the
source. Its fields are those of the spec's data model, under the names the
handlers assign to; `Enable` is a `*bool`. -/
structure AlertRule where
  ID : Nat
  Name : String
  Rules : List Rule
  FailTriggerTasks : List Nat
  RecoverTriggerTasks : List Nat
  NotificationGroupID : Nat
  TriggerMode : Nat
  Enable : Option Bool
deriving DecidableEq, Repr

/-- The zero value of `model.AlertRule`, what `var r model.AlertRule` declares. -/
def AlertRule.zero : AlertRule :=
  { ID := 0, Name := "", Rules := [], FailTriggerTasks := [], RecoverTriggerTasks := [],
    NotificationGroupID := 0, TriggerMode := 0, Enable := none }

/-- Modelled from the spec: the type `model.AlertRuleForm` is not part of the
source. Its fields are the ones the handlers read from it. -/
structure AlertRuleForm where
  ID : Nat
  Name : String
  Rules : List Rule
  FailTriggerTasks : List Nat
  RecoverTriggerTasks : List Nat
  NotificationGroupID : Nat
  TriggerMode : Nat
  Enable : Bool
deriving DecidableEq, Repr

/-- Modelled from the spec: the type `model.DDNSProfile` is not part of the
source; only its primary key matters to `batchDeleteAlertRule`. -/
structure DDNSProfile where
  ID : Nat
deriving DecidableEq, Repr

/-- Go `error` values the handlers return. -/
inductive GoError where
  /-- An error built by `errors.New` or `fmt.Errorf` with this message. -/
  | errorsNew (msg : String)
  /-- The error of `strconv.ParseUint` on input `num`: out of range or bad syntax. -/
  | numError (num : String) (outOfRange : Bool)
  /-- The error `c.ShouldBindJSON` returned. -/
  | bindError (msg : String)
  /-- The result of `newGormError("%v", err)`, wrapping the store error `cause`. -/
  | gormError (cause : String)
deriving DecidableEq, Repr

/-- Modelled from the spec: `newGormError` is defined outside the source; it
wraps a store error into the uniform persistence error that carries the cause. -/
def newGormError (cause : String) : GoError := GoError.gormError cause

/-- Values of Go's `any` that `updateAlertRule` and `batchDeleteAlertRule` return. -/
inductive GoAny where
  | nil
  | int (n : Int)
  | uint64 (n : Nat)
deriving DecidableEq, Repr

/-! ## validateRule -/

/-- The body of the `for _, rule := range r.Rules` loop of `validateRule`, with
`time.Now()` read as `now`: the first error met, or `none` when the loop runs
to its end. -/
def validateRule.loop (now : Time) : List Rule → Option GoError
  | [] => none
  | rule :: rest =>
    if !rule.IsTransferDurationRule then
      if rule.Duration < 3 then
        some (GoError.errorsNew "错误: Duration 至少为 3")
      else validateRule.loop now rest
    else
      if rule.CycleInterval < 1 then
        some (GoError.errorsNew "错误: cycle_interval 至少为 1")
      else
        match rule.CycleStart with
        | none => some (GoError.errorsNew "错误: cycle_start 未设置")
        | some start =>
          if Time.After start now then
            some (GoError.errorsNew "错误: cycle_start 是个未来值")
          else validateRule.loop now rest

/-- The function `validateRule`: `none` is the nil error. -/
def validateRule (now : Time) (r : AlertRule) : Option GoError :=
  if r.Rules.length > 0 then
    validateRule.loop now r.Rules
  else
    some (GoError.errorsNew "至少定义一条规则")

/-! ## The store and the registry -/

/-- The two database tables within reach of the handlers. -/
structure DB where
  alertRules : List AlertRule
  ddnsProfiles : List DDNSProfile
deriving DecidableEq, Repr

/-- The state the handlers run in: the database behind `singleton.DB` and the
in-memory cache `singleton.Alerts`. -/
structure State where
  DB : DB
  Alerts : List AlertRule
deriving DecidableEq, Repr

/-- The record types a store call can name. -/
inductive Model where
  | AlertRule
  | DDNSProfile
deriving DecidableEq, Repr

/-- The alert-rule record stored under `id`, if there is one. -/
def DB.lookup (db : DB) (id : Nat) : Option AlertRule :=
  db.alertRules.find? (fun x => x.ID == id)

/-- An identifier above every identifier in the alert-rule table. -/
def DB.freshID (db : DB) : Nat :=
  db.alertRules.foldl (fun m x => max m x.ID) 0 + 1

/-- Modelled from the spec: the store behind `singleton.DB.First` is not part of
the source. `fetch(id) -> rule | NotFound`; `fault` is a failure of the storage
backend during the call, if any. -/
def DB.First (fault : Option String) (db : DB) (id : Nat) : Except String AlertRule :=
  match fault with
  | some e => .error e
  | none =>
    match db.lookup id with
    | some r => .ok r
    | none => .error "record not found"

/-- Modelled from the spec: the store behind `singleton.DB.Create` is not part of
the source. `create(rule) -> id | StoreError` assigns a new identifier and
persists a full record; the record with its identifier is handed back. -/
def DB.Create (fault : Option String) (db : DB) (r : AlertRule) : Except String (AlertRule × DB) :=
  match fault with
  | some e => .error e
  | none =>
    let r1 := { r with ID := db.freshID }
    .ok (r1, { db with alertRules := db.alertRules ++ [r1] })

/-- Modelled from the spec: the store behind `singleton.DB.Save` is not part of
the source. `update(rule) -> Ok | StoreError` is a full overwrite by id, and the
id must already exist. -/
def DB.Save (fault : Option String) (db : DB) (r : AlertRule) : Except String DB :=
  match fault with
  | some e => .error e
  | none =>
    if db.alertRules.any (fun x => x.ID == r.ID) then
      .ok { db with alertRules := db.alertRules.map (fun x => if x.ID == r.ID then r else x) }
    else .error "record not found"

/-- Modelled from the spec: the store behind `singleton.DB.Unscoped().Delete` is
not part of the source. `deleteMany(ids) -> Ok | StoreError` hard-deletes every
record of the named type whose id is listed; an id without a record is not an
error. -/
def DB.Delete (fault : Option String) (db : DB) (model : Model) (ids : List Nat) :
    Except String DB :=
  match fault with
  | some e => .error e
  | none =>
    match model with
    | .AlertRule => .ok { db with alertRules := db.alertRules.filter (fun x => !ids.contains x.ID) }
    | .DDNSProfile =>
      .ok { db with ddnsProfiles := db.ddnsProfiles.filter (fun x => !ids.contains x.ID) }

/-- The registry entry cached under `id`, if there is one. -/
def lookupAlert (alerts : List AlertRule) (id : Nat) : Option AlertRule :=
  alerts.find? (fun x => x.ID == id)

/-- Modelled from the spec: `singleton.OnRefreshOrAddAlert` is not part of the
source. `upsert(rule)` inserts or replaces the entry keyed by the rule's id. -/
def OnRefreshOrAddAlert (r : AlertRule) (alerts : List AlertRule) : List AlertRule :=
  if alerts.any (fun x => x.ID == r.ID) then
    alerts.map (fun x => if x.ID == r.ID then r else x)
  else alerts ++ [r]

/-- Modelled from the spec: `singleton.OnDeleteAlert` is not part of the source.
`remove(ids)` deletes all matching keys; missing keys are no-ops. -/
def OnDeleteAlert (ids : List Nat) (alerts : List AlertRule) : List AlertRule :=
  alerts.filter (fun x => !ids.contains x.ID)

/-! ## Request inputs -/

/-- Largest `uint64`. -/
def maxUint64 : Nat := 2 ^ 64 - 1

/-- The digit loop of `strconv.ParseUint` for base 10 and 64 bits: `none` is a
syntax error, `some none` a range error, `some (some n)` the value. -/
def ParseUint.loop : List Char → Nat → Option (Option Nat)
  | [], n => some (some n)
  | c :: cs, n =>
    if 48 ≤ c.toNat ∧ c.toNat ≤ 57 then
      let d := c.toNat - 48
      if n ≥ maxUint64 / 10 + 1 then some none
      else
        let n1 := n * 10 + d
        if n1 > maxUint64 then some none
        else ParseUint.loop cs n1
    else none

/-- The call `strconv.ParseUint(s, 10, 64)`. -/
def ParseUint (s : String) : Except GoError Nat :=
  if s.data = [] then .error (GoError.numError s false)
  else
    match ParseUint.loop s.data 0 with
    | none => .error (GoError.numError s false)
    | some none => .error (GoError.numError s true)
    | some (some n) => .ok n

/-- What a handler reads from its surroundings while serving one request whose
body binds to a `β`: the path parameter `c.Param("id")`, the outcome of
`c.ShouldBindJSON`, the reading of `time.Now()`, and the failure of the storage
backend, if any, during the handler's read and during its write. -/
structure Context (β : Type) where
  Param_id : String
  ShouldBindJSON : Except GoError β
  now : Time
  readFault : Option String
  writeFault : Option String

/-! ## The handlers -/

/-- The handler `createAlertRule`, returning `(id, err)` and the state it leaves. -/
def createAlertRule (c : Context AlertRuleForm) (s : State) : (Nat × Option GoError) × State :=
  match c.ShouldBindJSON with
  | .error err => ((0, some err), s)
  | .ok arf =>
    let r := AlertRule.zero
    match validateRule c.now r with
    | some err => ((0, some err), s)
    | none =>
      let r := { r with
        Name := arf.Name, Rules := arf.Rules, FailTriggerTasks := arf.FailTriggerTasks,
        RecoverTriggerTasks := arf.RecoverTriggerTasks,
        NotificationGroupID := arf.NotificationGroupID, TriggerMode := arf.TriggerMode,
        Enable := some arf.Enable, ID := arf.ID }
      match DB.Create c.writeFault s.DB r with
      | .error err => ((0, some (newGormError err)), s)
      | .ok (r, db) => ((r.ID, none), { DB := db, Alerts := OnRefreshOrAddAlert r s.Alerts })

/-- The handler `updateAlertRule`, returning `(value, err)` and the state it leaves. -/
def updateAlertRule (c : Context AlertRuleForm) (s : State) :
    (GoAny × Option GoError) × State :=
  match ParseUint c.Param_id with
  | .error err => ((GoAny.nil, some err), s)
  | .ok id =>
    match c.ShouldBindJSON with
    | .error err => ((GoAny.int 0, some err), s)
    | .ok arf =>
      match DB.First c.readFault s.DB id with
      | .error _ =>
        ((GoAny.nil, some (GoError.errorsNew ("alert id " ++ toString id ++ " does not exist"))), s)
      | .ok r =>
        match validateRule c.now r with
        | some err => ((GoAny.int 0, some err), s)
        | none =>
          let r := { r with
            Name := arf.Name, Rules := arf.Rules, FailTriggerTasks := arf.FailTriggerTasks,
            RecoverTriggerTasks := arf.RecoverTriggerTasks,
            NotificationGroupID := arf.NotificationGroupID, TriggerMode := arf.TriggerMode,
            Enable := some arf.Enable, ID := arf.ID }
          match DB.Save c.writeFault s.DB r with
          | .error err => ((GoAny.int 0, some (newGormError err)), s)
          | .ok db => ((GoAny.uint64 r.ID, none), { DB := db, Alerts := OnRefreshOrAddAlert r s.Alerts })

/-- The handler `batchDeleteAlertRule`, returning `(value, err)` and the state it
leaves. -/
def batchDeleteAlertRule (c : Context (List Nat)) (s : State) :
    (GoAny × Option GoError) × State :=
  match c.ShouldBindJSON with
  | .error err => ((GoAny.nil, some err), s)
  | .ok ar =>
    match DB.Delete c.writeFault s.DB Model.DDNSProfile ar with
    | .error err => ((GoAny.nil, some (newGormError err)), s)
    | .ok db => ((GoAny.nil, none), { DB := db, Alerts := OnDeleteAlert ar s.Alerts })

/-- The rule a handler builds from a form: the field-by-field copy both
`createAlertRule` and `updateAlertRule` perform, `Enable` pointing at a copy of
the form's flag. -/
def AlertRuleForm.toRule (arf : AlertRuleForm) : AlertRule :=
  { ID := arf.ID, Name := arf.Name, Rules := arf.Rules,
    FailTriggerTasks := arf.FailTriggerTasks, RecoverTriggerTasks := arf.RecoverTriggerTasks,
    NotificationGroupID := arf.NotificationGroupID, TriggerMode := arf.TriggerMode,
    Enable := some arf.Enable }

/-! ## The constraint on one expression, in the spec's words -/

/-- The spec's constraint on a single expression: a plain expression needs
`duration ≥ 3`; a cyclic one needs `cycle_interval ≥ 1`, a `cycle_start` that is
set, and a `cycle_start` not strictly after `now`. -/
def Rule.Valid (now : Time) (e : Rule) : Prop :=
  (e.IsTransferDurationRule = false → 3 ≤ e.Duration) ∧
  (e.IsTransferDurationRule = true →
    1 ≤ e.CycleInterval ∧ ∃ start, e.CycleStart = some start ∧ ¬ now < start)

/-- The spec's rejection reason of an expression that violates its constraint:
`DurationTooShort` for a plain expression; for a cyclic one
`InvalidCycleInterval` when the interval is below 1, else `MissingCycleStart`
when `cycle_start` is unset, else `FutureCycleStart`. -/
def Rule.rejection (e : Rule) : GoError :=
  if e.IsTransferDurationRule = false then GoError.errorsNew "错误: Duration 至少为 3"
  else if e.CycleInterval < 1 then GoError.errorsNew "错误: cycle_interval 至少为 1"
  else if e.CycleStart = none then GoError.errorsNew "错误: cycle_start 未设置"
  else GoError.errorsNew "错误: cycle_start 是个未来值"

/-! ## Sample inputs -/

/-- A plain (non-cyclic) expression with the given duration. -/
def plainRule (d : Int) : Rule :=
  { is_cyclic := false, Duration := d, CycleInterval := 0, CycleStart := none }

/-- A stored rule with id 1 and one valid expression. -/
def ruleOne : AlertRule :=
  { ID := 1, Name := "cpu", Rules := [plainRule 5], FailTriggerTasks := [],
    RecoverTriggerTasks := [], NotificationGroupID := 1, TriggerMode := 0, Enable := some true }

/-- A stored rule with id 2 and one valid expression. -/
def ruleTwo : AlertRule :=
  { ID := 2, Name := "mem", Rules := [plainRule 7], FailTriggerTasks := [],
    RecoverTriggerTasks := [], NotificationGroupID := 1, TriggerMode := 0, Enable := some true }

/-- A valid form carrying the given id. -/
def validForm (id : Nat) : AlertRuleForm :=
  { ID := id, Name := "disk", Rules := [plainRule 10], FailTriggerTasks := [4],
    RecoverTriggerTasks := [5], NotificationGroupID := 3, TriggerMode := 1, Enable := false }

/-- A form carrying the given id whose rule definition is empty, hence invalid. -/
def emptyForm (id : Nat) : AlertRuleForm :=
  { ID := id, Name := "disk", Rules := [], FailTriggerTasks := [],
    RecoverTriggerTasks := [], NotificationGroupID := 3, TriggerMode := 1, Enable := false }

/-- A request with the given path parameter and bound body, served at time 100
with a healthy storage backend. -/
def request {β : Type} (param : String) (body : β) : Context β :=
  { Param_id := param, ShouldBindJSON := .ok body, now := 100, readFault := none,
    writeFault := none }

/-- A state with no records and an empty registry. -/
def emptyState : State := { DB := { alertRules := [], ddnsProfiles := [] }, Alerts := [] }

/-- A state whose store and registry both hold `ruleOne` and `ruleTwo`, next to a
DDNS profile with id 1. -/
def twoRuleState : State :=
  { DB := { alertRules := [ruleOne, ruleTwo], ddnsProfiles := [{ ID := 1 }] },
    Alerts := [ruleOne, ruleTwo] }

/-! ## Lemmas on `validateRule` -/

theorem loop_cons_of_valid (now : Time) (e : Rule) (rest : List Rule) (h : e.Valid now) :
    validateRule.loop now (e :: rest) = validateRule.loop now rest := by
  obtain ⟨hp, hc⟩ := h
  cases hk : e.IsTransferDurationRule with
  | false =>
    have h3 := hp hk
    simp [validateRule.loop, hk, not_lt.mpr h3]
  | true =>
    obtain ⟨h1, start, hs, hnow⟩ := hc hk
    simp [validateRule.loop, hk, not_lt.mpr h1, hs, Time.After, hnow]

theorem loop_cons_of_not_valid (now : Time) (e : Rule) (rest : List Rule) (h : ¬ e.Valid now) :
    validateRule.loop now (e :: rest) = some e.rejection := by
  cases hk : e.IsTransferDurationRule with
  | false =>
    have h3 : e.Duration < 3 := by
      by_contra hd
      exact h ⟨fun _ => not_lt.mp hd, fun ht => by simp [hk] at ht⟩
    simp [validateRule.loop, hk, h3, Rule.rejection]
  | true =>
    by_cases h1 : e.CycleInterval < 1
    · simp [validateRule.loop, hk, h1, Rule.rejection]
    · cases hs : e.CycleStart with
      | none => simp [validateRule.loop, hk, h1, hs, Rule.rejection]
      | some start =>
        have hf : now < start := by
          by_contra hn
          exact h ⟨fun hp => by simp [hk] at hp, fun _ => ⟨not_lt.mp h1, start, hs, hn⟩⟩
        simp [validateRule.loop, hk, h1, hs, Rule.rejection, Time.After, hf]

theorem loop_eq_none_iff (now : Time) (l : List Rule) :
    validateRule.loop now l = none ↔ ∀ e ∈ l, e.Valid now := by
  induction l with
  | nil => simp [validateRule.loop]
  | cons e rest ih =>
    by_cases h : e.Valid now
    · rw [loop_cons_of_valid now e rest h, ih]
      simp [h]
    · rw [loop_cons_of_not_valid now e rest h]
      simp [h]

theorem loop_eq_some (now : Time) (l : List Rule) (err : GoError)
    (h : validateRule.loop now l = some err) :
    ∃ pre e post, l = pre ++ e :: post ∧ (∀ x ∈ pre, x.Valid now) ∧ ¬ e.Valid now ∧
      err = e.rejection := by
  induction l with
  | nil => simp [validateRule.loop] at h
  | cons e rest ih =>
    by_cases hv : e.Valid now
    · rw [loop_cons_of_valid now e rest hv] at h
      obtain ⟨pre, e1, post, hl, hpre, hbad, herr⟩ := ih h
      refine ⟨e :: pre, e1, post, by simp [hl], ?_, hbad, herr⟩
      intro x hx
      rcases List.mem_cons.mp hx with rfl | hx
      · exact hv
      · exact hpre x hx
    · rw [loop_cons_of_not_valid now e rest hv] at h
      refine ⟨[], e, rest, rfl, by simp, hv, ?_⟩
      exact (Option.some.inj h).symm

theorem rejection_ne_empty (e : Rule) : e.rejection ≠ GoError.errorsNew "至少定义一条规则" := by
  unfold Rule.rejection
  split_ifs <;> decide

/-! ## Theorems on `validateRule` -/

/-- C1: `validateRule` accepts a rule exactly when its `Rules` are non-empty and
every expression satisfies its own constraint: a plain expression has
`Duration ≥ 3`; a cyclic one has `CycleInterval ≥ 1` and a `CycleStart` that is
set and not strictly after `now` (equal to `now` is accepted). -/
theorem validateRule_accepts_iff (now : Time) (r : AlertRule) :
    validateRule now r = none ↔
      r.Rules ≠ [] ∧ ∀ e ∈ r.Rules,
        (e.IsTransferDurationRule = false → 3 ≤ e.Duration) ∧
        (e.IsTransferDurationRule = true →
          1 ≤ e.CycleInterval ∧ ∃ start, e.CycleStart = some start ∧ ¬ now < start) := by
  unfold validateRule
  by_cases hl : r.Rules = []
  · simp [hl]
  · have hpos : r.Rules.length > 0 := List.length_pos.mpr hl
    rw [if_pos hpos, loop_eq_none_iff]
    exact ⟨fun h => ⟨hl, h⟩, fun h => h.2⟩

/-- C9: when `validateRule` rejects, the reason is the empty-rule-set error
exactly when `Rules` is empty; otherwise it is the reason of the first
expression, in sequence order, that violates its constraint: the duration error
for a plain expression, and for a cyclic one the interval error when the
interval is below 1, else the missing-start error when `CycleStart` is unset,
else the future-start error. -/
theorem validateRule_rejection_reason (now : Time) (r : AlertRule) (err : GoError)
    (h : validateRule now r = some err) :
    (err = GoError.errorsNew "至少定义一条规则" ↔ r.Rules = []) ∧
    (r.Rules ≠ [] →
      ∃ pre e post, r.Rules = pre ++ e :: post ∧ (∀ x ∈ pre, x.Valid now) ∧ ¬ e.Valid now ∧
        err = (if e.IsTransferDurationRule = false then
                GoError.errorsNew "错误: Duration 至少为 3"
              else if e.CycleInterval < 1 then GoError.errorsNew "错误: cycle_interval 至少为 1"
              else if e.CycleStart = none then GoError.errorsNew "错误: cycle_start 未设置"
              else GoError.errorsNew "错误: cycle_start 是个未来值")) := by
  unfold validateRule at h
  by_cases hl : r.Rules = []
  · simp [hl] at h
    simp [hl, h.symm]
  · have hpos : r.Rules.length > 0 := List.length_pos.mpr hl
    rw [if_pos hpos] at h
    obtain ⟨pre, e, post, hsplit, hpre, hbad, herr⟩ := loop_eq_some now r.Rules err h
    refine ⟨⟨fun he => ?_, fun he => absurd he hl⟩, fun _ => ⟨pre, e, post, hsplit, hpre, hbad, herr⟩⟩
    exact absurd (herr ▸ he) (rejection_ne_empty e)

/-- Witness of C9: a cyclic expression with interval 0 and no `CycleStart` is
rejected with the interval error. -/
theorem validateRule_rejection_reason_witness :
    validateRule 10 { AlertRule.zero with Rules := [⟨true, 0, 0, none⟩] }
        = some (GoError.errorsNew "错误: cycle_interval 至少为 1") ∧
      ((GoError.errorsNew "错误: cycle_interval 至少为 1" = GoError.errorsNew "至少定义一条规则" ↔
        ({ AlertRule.zero with Rules := [⟨true, 0, 0, none⟩] } : AlertRule).Rules = []) ∧
       (({ AlertRule.zero with Rules := [⟨true, 0, 0, none⟩] } : AlertRule).Rules ≠ [] →
        ∃ pre e post,
          ({ AlertRule.zero with Rules := [⟨true, 0, 0, none⟩] } : AlertRule).Rules
            = pre ++ e :: post ∧ (∀ x ∈ pre, x.Valid 10) ∧ ¬ e.Valid 10 ∧
          GoError.errorsNew "错误: cycle_interval 至少为 1" =
            (if e.IsTransferDurationRule = false then
              GoError.errorsNew "错误: Duration 至少为 3"
            else if e.CycleInterval < 1 then GoError.errorsNew "错误: cycle_interval 至少为 1"
            else if e.CycleStart = none then GoError.errorsNew "错误: cycle_start 未设置"
            else GoError.errorsNew "错误: cycle_start 是个未来值"))) :=
  ⟨by decide, validateRule_rejection_reason 10 _ _ (by decide)⟩

/-! ## Lemmas on the handlers -/

theorem validateRule_zero (now : Time) :
    validateRule now AlertRule.zero = some (GoError.errorsNew "至少定义一条规则") := by
  simp [validateRule, AlertRule.zero]

theorem createAlertRule_of_bound (c : Context AlertRuleForm) (s : State) (arf : AlertRuleForm)
    (hb : c.ShouldBindJSON = .ok arf) :
    createAlertRule c s = ((0, some (GoError.errorsNew "至少定义一条规则")), s) := by
  simp [createAlertRule, hb, validateRule_zero]

theorem createAlertRule_state (c : Context AlertRuleForm) (s : State) :
    (createAlertRule c s).2 = s := by
  cases hb : c.ShouldBindJSON with
  | error err => simp [createAlertRule, hb]
  | ok arf => rw [createAlertRule_of_bound c s arf hb]

theorem lookup_eq_none_of_absent (l : List AlertRule) (id : Nat) (h : ∀ x ∈ l, x.ID ≠ id) :
    l.find? (fun x => x.ID == id) = none := by
  rw [List.find?_eq_none]
  intro x hx
  simpa using h x hx

/-! ## Theorems on `createAlertRule` -/

/-- C10: `createAlertRule` validates the freshly declared zero-value rule, so
for every request whose body binds, whatever the form holds and whether or not
the storage backend is healthy, it returns `(0, "至少定义一条规则")` and leaves
store and registry as they were. -/
theorem createAlertRule_always_empty_rule_set (c : Context AlertRuleForm) (s : State)
    (arf : AlertRuleForm) (hb : c.ShouldBindJSON = .ok arf) :
    createAlertRule c s = ((0, some (GoError.errorsNew "至少定义一条规则")), s) := by
  simp [createAlertRule, hb, validateRule, AlertRule.zero]

/-- Witness of C10: a form with one valid expression, submitted against a
populated state. -/
theorem createAlertRule_always_empty_rule_set_witness :
    (request "" (validForm 0)).ShouldBindJSON = .ok (validForm 0) ∧
      createAlertRule (request "" (validForm 0)) twoRuleState
        = ((0, some (GoError.errorsNew "至少定义一条规则")), twoRuleState) :=
  ⟨rfl, createAlertRule_always_empty_rule_set _ _ (validForm 0) rfl⟩

/-- C2, evaluated at a failing input: the form `validForm 0` is valid (the rule
built from its fields passes `validateRule`) and the store create of that rule
succeeds on the empty state, yet `createAlertRule` returns the empty-rule-set
error and the registry stays empty. -/
theorem createAlertRule_rejects_valid_form :
    validateRule 100 (validForm 0).toRule = none ∧
    (DB.Create none emptyState.DB (validForm 0).toRule).toOption.isSome = true ∧
    createAlertRule (request "" (validForm 0)) emptyState
      = ((0, some (GoError.errorsNew "至少定义一条规则")), emptyState) ∧
    (createAlertRule (request "" (validForm 0)) emptyState).2.Alerts = [] := by
  refine ⟨by decide, rfl, by decide, by decide⟩

/-! ## Theorems on `updateAlertRule` -/

/-- C7: when the path id parses, the body binds and no record of the store has
that id, `updateAlertRule` fails with `alert id <id> does not exist`, whatever
the form holds and whatever the clock reads, and leaves store and registry as
they were. -/
theorem updateAlertRule_missing_id (c : Context AlertRuleForm) (s : State) (id : Nat)
    (arf : AlertRuleForm) (hp : ParseUint c.Param_id = .ok id)
    (hb : c.ShouldBindJSON = .ok arf) (habsent : ∀ x ∈ s.DB.alertRules, x.ID ≠ id) :
    updateAlertRule c s
      = ((GoAny.nil,
          some (GoError.errorsNew ("alert id " ++ toString id ++ " does not exist"))), s) := by
  have hfirst : ∀ fault, ∃ e, DB.First fault s.DB id = .error e := by
    intro fault
    cases fault with
    | some e => exact ⟨e, rfl⟩
    | none =>
      refine ⟨"record not found", ?_⟩
      simp [DB.First, DB.lookup, lookup_eq_none_of_absent _ _ habsent]
  obtain ⟨e, he⟩ := hfirst c.readFault
  simp [updateAlertRule, hp, hb, he]

/-- Witness of C7: id 7 is not stored in `twoRuleState`; both a valid and an
invalid form are turned away with the not-found error. -/
theorem updateAlertRule_missing_id_witness :
    ParseUint (request "7" (emptyForm 7)).Param_id = .ok 7 ∧
    (∀ x ∈ twoRuleState.DB.alertRules, x.ID ≠ 7) ∧
    updateAlertRule (request "7" (emptyForm 7)) twoRuleState
      = ((GoAny.nil, some (GoError.errorsNew "alert id 7 does not exist")), twoRuleState) :=
  ⟨rfl, by decide,
    updateAlertRule_missing_id (request "7" (emptyForm 7)) twoRuleState 7 (emptyForm 7) rfl rfl
      (by decide)⟩

/-- C3, evaluated at a failing input: the path names the stored rule 1 and the
valid form carries id 2. The update succeeds and returns 2; the record and the
registry entry under the path id 1 are still the old `ruleOne`, while the record
and the registry entry under id 2 have been overwritten with the form. -/
theorem updateAlertRule_writes_form_id :
    validateRule 100 (validForm 2).toRule = none ∧
    updateAlertRule (request "1" (validForm 2)) twoRuleState
      = ((GoAny.uint64 2, none),
         { DB := { alertRules := [ruleOne, (validForm 2).toRule], ddnsProfiles := [{ ID := 1 }] },
           Alerts := [ruleOne, (validForm 2).toRule] }) ∧
    (updateAlertRule (request "1" (validForm 2)) twoRuleState).2.DB.lookup 1 = some ruleOne ∧
    lookupAlert (updateAlertRule (request "1" (validForm 2)) twoRuleState).2.Alerts 1
      = some ruleOne ∧
    twoRuleState.DB.lookup 2 = some ruleTwo ∧
    (updateAlertRule (request "1" (validForm 2)) twoRuleState).2.DB.lookup 2
      = some (validForm 2).toRule ∧
    lookupAlert (updateAlertRule (request "1" (validForm 2)) twoRuleState).2.Alerts 2
      = some (validForm 2).toRule := by
  refine ⟨by decide, by decide, by decide, by decide, by decide, by decide, by decide⟩

/-- C4, evaluated at a failing input: the path names the stored rule 1 and the
form, carrying id 1, has an empty rule definition, which `validateRule` rejects.
The update succeeds all the same, and both the store and the registry now hold
the empty definition under id 1. -/
theorem updateAlertRule_accepts_invalid_form :
    validateRule 100 (emptyForm 1).toRule = some (GoError.errorsNew "至少定义一条规则") ∧
    updateAlertRule (request "1" (emptyForm 1)) twoRuleState
      = ((GoAny.uint64 1, none),
         { DB := { alertRules := [(emptyForm 1).toRule, ruleTwo], ddnsProfiles := [{ ID := 1 }] },
           Alerts := [(emptyForm 1).toRule, ruleTwo] }) ∧
    ((updateAlertRule (request "1" (emptyForm 1)) twoRuleState).2.DB.lookup 1).map
      (fun r => r.Rules) = some [] := by
  refine ⟨by decide, by decide, by decide⟩

/-! ## Theorems on `batchDeleteAlertRule` -/

theorem batchDeleteAlertRule_of_ok (c : Context (List Nat)) (s : State) (ids : List Nat)
    (hb : c.ShouldBindJSON = .ok ids) (hok : (batchDeleteAlertRule c s).1.2 = none) :
    (batchDeleteAlertRule c s).2.Alerts = s.Alerts.filter (fun x => !ids.contains x.ID) := by
  unfold batchDeleteAlertRule at hok ⊢
  rw [hb] at hok ⊢
  cases hd : DB.Delete c.writeFault s.DB Model.DDNSProfile ids with
  | error e => simp [hd] at hok
  | ok db => simp [hd, OnDeleteAlert]

theorem find_filter_of_not_listed (l : List AlertRule) (ids : List Nat) (id : Nat)
    (hid : id ∉ ids) :
    lookupAlert (l.filter (fun x => !ids.contains x.ID)) id = lookupAlert l id := by
  unfold lookupAlert
  induction l with
  | nil => rfl
  | cons a l ih =>
    rw [List.filter_cons]
    by_cases hm : a.ID ∈ ids
    · have hp : (!ids.contains a.ID) = false := by simp [hm]
      have ha : (a.ID == id) = false := by
        simpa using fun h : a.ID = id => hid (h ▸ hm)
      rw [hp, if_neg (by decide), List.find?_cons, ha]
      exact ih
    · have hp : (!ids.contains a.ID) = true := by simp [hm]
      rw [hp, if_pos rfl, List.find?_cons, List.find?_cons]
      cases (a.ID == id) with
      | true => rfl
      | false => exact ih

/-- C5, evaluated at a failing input: the store holds the alert rules 1 and 2 and
a DDNS profile 1. A batch delete of `[1]` succeeds; afterwards the alert-rule
table still holds rule 1 although the registry has evicted it, and what was
deleted from the store is the DDNS profile with id 1. -/
theorem batchDeleteAlertRule_keeps_alert_rule :
    batchDeleteAlertRule (request "" [1]) twoRuleState
      = ((GoAny.nil, none),
         { DB := { alertRules := [ruleOne, ruleTwo], ddnsProfiles := [] },
           Alerts := [ruleTwo] }) ∧
    (batchDeleteAlertRule (request "" [1]) twoRuleState).2.DB.lookup 1 = some ruleOne ∧
    lookupAlert (batchDeleteAlertRule (request "" [1]) twoRuleState).2.Alerts 1 = none := by
  refine ⟨by decide, by decide, by decide⟩

/-- C6: after a successful `batchDeleteAlertRule` on the id list `ids`, the
registry holds no entry whose id is listed; an entry whose id is not listed is
in the registry afterwards exactly when it was before, the surviving entries
keep their order, and looking up an unlisted id gives what it gave before; when
no listed id was cached the registry is unchanged. -/
theorem batchDeleteAlertRule_registry (c : Context (List Nat)) (s : State) (ids : List Nat)
    (hb : c.ShouldBindJSON = .ok ids) (hok : (batchDeleteAlertRule c s).1.2 = none) :
    (∀ x ∈ (batchDeleteAlertRule c s).2.Alerts, x.ID ∉ ids) ∧
    (∀ id ∈ ids, lookupAlert (batchDeleteAlertRule c s).2.Alerts id = none) ∧
    (∀ x, x.ID ∉ ids → (x ∈ (batchDeleteAlertRule c s).2.Alerts ↔ x ∈ s.Alerts)) ∧
    (∀ id, id ∉ ids →
      lookupAlert (batchDeleteAlertRule c s).2.Alerts id = lookupAlert s.Alerts id) ∧
    List.Sublist (batchDeleteAlertRule c s).2.Alerts s.Alerts ∧
    ((∀ x ∈ s.Alerts, x.ID ∉ ids) → (batchDeleteAlertRule c s).2.Alerts = s.Alerts) := by
  rw [batchDeleteAlertRule_of_ok c s ids hb hok]
  refine ⟨?_, ?_, ?_, ?_, List.filter_sublist _, ?_⟩
  · intro x hx
    simpa using (List.mem_filter.mp hx).2
  · intro id hid
    unfold lookupAlert
    rw [List.find?_eq_none]
    intro x hx hxid
    have h1 := (List.mem_filter.mp hx).2
    have h2 : x.ID = id := by simpa using hxid
    simp [h2, hid] at h1
  · intro x hx
    simp [List.mem_filter, hx]
  · intro id hid
    exact find_filter_of_not_listed s.Alerts ids id hid
  · intro h
    rw [List.filter_eq_self]
    intro x hx
    simpa using h x hx

/-- Witness of C6: deleting `[1, 9]` from a registry holding rules 1 and 2 leaves
exactly rule 2; id 9 was never cached. -/
theorem batchDeleteAlertRule_registry_witness :
    (batchDeleteAlertRule (request "" [1, 9]) twoRuleState).1.2 = none ∧
    (batchDeleteAlertRule (request "" [1, 9]) twoRuleState).2.Alerts = [ruleTwo] ∧
    (∀ x ∈ (batchDeleteAlertRule (request "" [1, 9]) twoRuleState).2.Alerts, x.ID ∉ [1, 9]) :=
  ⟨by decide, by decide,
    (batchDeleteAlertRule_registry (request "" [1, 9]) twoRuleState [1, 9] rfl (by decide)).1⟩

/-! ## Failure atomicity of the registry -/

/-- C8: whenever `createAlertRule`, `updateAlertRule` or `batchDeleteAlertRule`
returns an error, the registry is what it was before the call. A failure of the
store write reached by `updateAlertRule` or `batchDeleteAlertRule` comes back
wrapped by `newGormError`, with store and registry untouched. -/
theorem registry_unchanged_on_error (cc uc : Context AlertRuleForm) (dc : Context (List Nat))
    (s : State) :
    ((createAlertRule cc s).1.2 ≠ none → (createAlertRule cc s).2.Alerts = s.Alerts) ∧
    ((updateAlertRule uc s).1.2 ≠ none → (updateAlertRule uc s).2.Alerts = s.Alerts) ∧
    ((batchDeleteAlertRule dc s).1.2 ≠ none → (batchDeleteAlertRule dc s).2.Alerts = s.Alerts) ∧
    (∀ id arf r cause, ParseUint uc.Param_id = .ok id → uc.ShouldBindJSON = .ok arf →
      DB.First uc.readFault s.DB id = .ok r → validateRule uc.now r = none →
      DB.Save uc.writeFault s.DB arf.toRule = .error cause →
      updateAlertRule uc s = ((GoAny.int 0, some (newGormError cause)), s)) ∧
    (∀ ids cause, dc.ShouldBindJSON = .ok ids →
      DB.Delete dc.writeFault s.DB Model.DDNSProfile ids = .error cause →
      batchDeleteAlertRule dc s = ((GoAny.nil, some (newGormError cause)), s)) := by
  refine ⟨fun _ => by rw [createAlertRule_state], ?_, ?_, ?_, ?_⟩
  · intro herr
    cases hp : ParseUint uc.Param_id with
    | error e => simp [updateAlertRule, hp]
    | ok id =>
      cases hb : uc.ShouldBindJSON with
      | error e => simp [updateAlertRule, hp, hb]
      | ok arf =>
        cases hf : DB.First uc.readFault s.DB id with
        | error e => simp [updateAlertRule, hp, hb, hf]
        | ok r =>
          cases hv : validateRule uc.now r with
          | some e => simp [updateAlertRule, hp, hb, hf, hv]
          | none =>
            cases hs : DB.Save uc.writeFault s.DB arf.toRule with
            | error e =>
              have hs2 : DB.Save uc.writeFault s.DB
                  { r with
                    Name := arf.Name, Rules := arf.Rules,
                    FailTriggerTasks := arf.FailTriggerTasks,
                    RecoverTriggerTasks := arf.RecoverTriggerTasks,
                    NotificationGroupID := arf.NotificationGroupID,
                    TriggerMode := arf.TriggerMode, Enable := some arf.Enable, ID := arf.ID }
                  = .error e := hs
              simp [updateAlertRule, hp, hb, hf, hv, hs2]
            | ok db =>
              have hs2 : DB.Save uc.writeFault s.DB
                  { r with
                    Name := arf.Name, Rules := arf.Rules,
                    FailTriggerTasks := arf.FailTriggerTasks,
                    RecoverTriggerTasks := arf.RecoverTriggerTasks,
                    NotificationGroupID := arf.NotificationGroupID,
                    TriggerMode := arf.TriggerMode, Enable := some arf.Enable, ID := arf.ID }
                  = .ok db := hs
              simp [updateAlertRule, hp, hb, hf, hv, hs2] at herr
  · intro herr
    cases hb : dc.ShouldBindJSON with
    | error e => simp [batchDeleteAlertRule, hb]
    | ok ids =>
      cases hd : DB.Delete dc.writeFault s.DB Model.DDNSProfile ids with
      | error e => simp [batchDeleteAlertRule, hb, hd]
      | ok db => simp [batchDeleteAlertRule, hb, hd] at herr
  · intro id arf r cause hp hb hf hv hs
    have hs2 : DB.Save uc.writeFault s.DB
        { r with
          Name := arf.Name, Rules := arf.Rules, FailTriggerTasks := arf.FailTriggerTasks,
          RecoverTriggerTasks := arf.RecoverTriggerTasks,
          NotificationGroupID := arf.NotificationGroupID,
          TriggerMode := arf.TriggerMode, Enable := some arf.Enable, ID := arf.ID }
        = .error cause := hs
    simp [updateAlertRule, hp, hb, hf, hv, hs2]
  · intro ids cause hb hd
    simp [batchDeleteAlertRule, hb, hd]

/-- Witness of C8: a create that fails validation, an update whose store write
fails and a batch delete whose store write fails all leave the registry of
`twoRuleState` in place, the two store failures coming back wrapped. -/
theorem registry_unchanged_on_error_witness :
    (createAlertRule (request "" (validForm 0)) twoRuleState).2.Alerts = twoRuleState.Alerts ∧
    (updateAlertRule { request "1" (validForm 1) with writeFault := some "disk full" }
        twoRuleState).2.Alerts = twoRuleState.Alerts ∧
    (batchDeleteAlertRule { request "" [1] with writeFault := some "disk full" }
        twoRuleState).2.Alerts = twoRuleState.Alerts ∧
    updateAlertRule { request "1" (validForm 1) with writeFault := some "disk full" } twoRuleState
      = ((GoAny.int 0, some (newGormError "disk full")), twoRuleState) ∧
    batchDeleteAlertRule { request "" [1] with writeFault := some "disk full" } twoRuleState
      = ((GoAny.nil, some (newGormError "disk full")), twoRuleState) :=
  have h := registry_unchanged_on_error (request "" (validForm 0))
    { request "1" (validForm 1) with writeFault := some "disk full" }
    { request "" [1] with writeFault := some "disk full" } twoRuleState
  ⟨h.1 (by decide), h.2.1 (by decide), h.2.2.1 (by decide),
    h.2.2.2.1 1 (validForm 1) ruleOne "disk full" rfl rfl rfl (by decide) rfl,
    h.2.2.2.2 [1] "disk full" rfl rfl⟩

end Nezha
